import Mathlib

/-!
Shallow embedding of `src/gtpoSerializer.h` (GTpo serializer interface layer).

Modelling conventions:
* Heap objects (`gtpo::IProgressNotifier` instances) are identified by `Nat` ids;
  a raw or smart pointer is an `Option Nat`, with `none` standing for `nullptr`.
* The serializer's only state is the owned notifier slot (`std::unique_ptr`),
  modelled together with the ordered list of notifier ids destroyed so far, so
  that ownership transfer and destruction of the previous occupant are visible.
* Exceptions are `Except String` / `Option String` values (the message).
* The file system is an association list from path to byte contents; paths on
  which `std::ofstream` (resp. `std::ifstream`) construction fails are listed in
  `writeDenied` (resp. `readDenied`; an input open also fails when the file does
  not exist).  The number of OS-level open stream handles is tracked by
  `openCount`; `std::ofstream`/`std::ifstream` destructors close their handle at
  scope exit, including during stack unwinding.
* Each path-based wrapper call produces an observable trace of events: stream
  opened, the `std::cerr` open-failure message, the delegated stream-based
  virtual call, and stream closed.
* The stream-based virtual methods `serializeOut(const Graph&, std::ostream&)`
  and `serializeIn(std::istream&, Graph&)` are open extension points (concrete
  serializers override them), so the wrappers are parametrised by the
  implementation: an out-implementation maps a graph and the current output
  stream buffer to the new buffer plus an optional thrown exception; an
  in-implementation maps an input stream (contents and read position) and a
  graph to the new stream, the (possibly partially mutated) graph, and an
  optional thrown exception.
-/

namespace GtpoSerializer

/-- State of a `gtpo::Serializer<GraphConfig>` relevant to progress-notifier
lifecycle: the `_progressNotifier` owned slot (a pointer, `none` = `nullptr`)
and the ids of notifier objects destroyed so far, in order of destruction. -/
structure SerializerState where
  held : Option Nat
  destroyed : List Nat
deriving DecidableEq

/-- Constructor `Serializer() : _progressNotifier{ new IProgressNotifier() }`:
the slot is initialised with a freshly allocated default notifier
(`defaultNotifier` is the id of that fresh allocation); nothing destroyed. -/
def mkSerializer (defaultNotifier : Nat) : SerializerState :=
  { held := some defaultNotifier, destroyed := [] }

/-- Overload `registerProgressNotifier(std::unique_ptr<IProgressNotifier>)`
(lines 126-130): if the argument unique_ptr is null, return (no-op); otherwise
`_progressNotifier.swap(progressNotifier)` puts the new notifier in the slot and
leaves the previous occupant in the local parameter, which is destroyed when the
function returns. -/
def registerProgressNotifierUnique (s : SerializerState) (progressNotifier : Option Nat) :
    SerializerState :=
  if progressNotifier = none then s
  else { held := progressNotifier, destroyed := s.destroyed ++ s.held.toList }

/-- Overload `registerProgressNotifier(IProgressNotifier*)` (lines 135-139): if
the raw pointer is null, return (no-op); otherwise swap the slot with a
temporary `std::unique_ptr` built from the raw pointer, transferring ownership
in; the temporary, now holding the previous occupant, is destroyed at the end
of the full expression. -/
def registerProgressNotifierRaw (s : SerializerState) (progressNotifier : Option Nat) :
    SerializerState :=
  if progressNotifier = none then s
  else { held := progressNotifier, destroyed := s.destroyed ++ s.held.toList }

/-- Modelled from the spec: `gtpo::assert_throw` is declared in `gtpoUtils.h`,
which is not among the provided sources.  The spec describes the read-time
check in `getProgressNotifier()` as a defensive check of the invariant that the
held notifier is never null, so `assert_throw cond msg` is modelled as
signalling the failure `msg` exactly when the bad condition `cond` passed at
the call site holds. -/
def assert_throw (condition : Bool) (message : String) : Except String Unit :=
  if condition then Except.error message else Except.ok ()

/-- Non-const accessor `getProgressNotifier()` (lines 145-148): defensively
checks `_progressNotifier == nullptr` via `assert_throw`, then returns the raw
pointer `_progressNotifier.get()`. -/
def getProgressNotifier (s : SerializerState) : Except String (Option Nat) :=
  match assert_throw s.held.isNone
      "gtpo Serializer getProgressNotifier: Internal error: serializer progress notifier cannot be nullptr." with
  | Except.error e => Except.error e
  | Except.ok _ => Except.ok s.held

/-- One call to either `registerProgressNotifier` overload, with its argument
pointer (`none` = null). -/
inductive RegisterCall where
  | viaUniquePtr (progressNotifier : Option Nat)
  | viaRawPtr (progressNotifier : Option Nat)
deriving DecidableEq

/-- Apply one registration call to the serializer state. -/
def applyRegister (s : SerializerState) : RegisterCall → SerializerState
  | RegisterCall.viaUniquePtr p => registerProgressNotifierUnique s p
  | RegisterCall.viaRawPtr p => registerProgressNotifierRaw s p

/-- Run a sequence of registration calls. -/
def runRegisterCalls (s : SerializerState) (calls : List RegisterCall) : SerializerState :=
  calls.foldl applyRegister s

/-- Abstract graph view state (the `GenGraph<GraphConfig>` aggregate is an
external collaborator; only whether and how the serializer changes it matters
here). -/
abbrev Graph := Nat

/-- One byte of stream content. -/
abbrev Byte := Nat

/-- Observable events of one path-based wrapper call. -/
inductive Event where
  | openedOut (path : String)
  | openedIn (path : String)
  | cerrOpenFail (path : String)
  | calledSerializeOut
  | calledSerializeIn
  | closedStream (path : String)
deriving DecidableEq

/-- World outside the serializer: file contents per path, the paths on which
an output (resp. input) stream constructor fails, and the number of currently
open OS-level stream handles. -/
structure World where
  fs : List (String × List Byte)
  writeDenied : List String
  readDenied : List String
  openCount : Nat
deriving DecidableEq

/-- Look up a file's contents by path. -/
def fsLookup : List (String × List Byte) → String → Option (List Byte)
  | [], _ => none
  | (k, v) :: rest, p => if k = p then some v else fsLookup rest p

/-- Set a file's contents at a path (creating the file if absent). -/
def fsUpdate : List (String × List Byte) → String → List Byte → List (String × List Byte)
  | [], p, v => [(p, v)]
  | (k, w) :: rest, p, v => if k = p then (p, v) :: rest else (k, w) :: fsUpdate rest p v

/-- An output stream is its buffered byte contents. -/
abbrev OutStream := List Byte

/-- An input stream: contents and current read position. -/
abbrev InStream := List Byte × Nat

/-- Behaviour of a (possibly overridden) `serializeOut(const Graph&,
std::ostream&)`: given the graph and the stream contents so far, the new stream
contents and an optionally thrown exception (bytes written before the throw
stay in the stream). -/
abbrev OutImpl := Graph → OutStream → OutStream × Option String

/-- Behaviour of a (possibly overridden) `serializeIn(std::istream&, Graph&)`:
given the input stream and the graph view, the new stream state, the (possibly
partially mutated) graph view, and an optionally thrown exception. -/
abbrev InImpl := InStream → Graph → InStream × Graph × Option String

/-- Default body of `Serializer::serializeOut(const Graph&, std::ostream&)`
(line 160): `{ (void)graph; (void)os; }` — the stream is untouched, nothing is
thrown. -/
def serializeOutStreamDefault : OutImpl := fun _graph os => (os, none)

/-- Default body of `Serializer::serializeIn(std::istream&, Graph&)`
(line 177): `{ (void)is; (void)graph; }` — stream and graph untouched, nothing
thrown. -/
def serializeInStreamDefault : InImpl := fun is graph => (is, graph, none)

/-- Default body of `OutSerializer::serializeOut(Graph&, IProgressNotifier*)`
(line 68): `{ (void)graph; (void)progress; }` — no effect, nothing thrown
(result is the optional thrown exception). -/
def outSerializerSerializeOutDefault (_graph : Graph) (_progress : Option Nat) : Option String :=
  none

/-- Default body of `InSerializer::serializeIn(Graph&, IProgressNotifier*)`
(line 89): `{ (void)graph; (void)progress; }` — graph view untouched, nothing
thrown. -/
def inSerializerSerializeInDefault (graph : Graph) (_progress : Option Nat) :
    Graph × Option String :=
  (graph, none)

/-- Result of a `serializeOutTo` call: the world after the call, the event
trace, and the exception propagated to the caller, if any. -/
structure OutResult where
  world : World
  trace : List Event
  thrown : Option String
deriving DecidableEq

/-- Result of a `serializeInFrom` call: world, graph view after the call,
event trace, and propagated exception. -/
structure InResult where
  world : World
  graph : Graph
  trace : List Event
  thrown : Option String
deriving DecidableEq

/-- Wrapper `serializeOutTo(const Graph&, std::string)` (lines 162-171):
construct `std::ofstream os(fileName, out|trunc|binary)`; if `!os`, print the
open-failure message to `std::cerr` and return; otherwise the open truncated
(or created) the file and registered a handle; call the virtual
`serializeOut(graph, os)`, whose written bytes reach the file; then either the
exception propagates and the `ofstream` destructor closes the handle during
unwinding, or `os.is_open()` holds and `os.close()` runs before a normal
return. -/
def serializeOutTo (impl : OutImpl) (w : World) (graph : Graph) (fileName : String) :
    OutResult :=
  if fileName ∈ w.writeDenied then
    { world := w, trace := [Event.cerrOpenFail fileName], thrown := none }
  else
    let w1 : World :=
      { w with fs := fsUpdate w.fs fileName [], openCount := w.openCount + 1 }
    let r := impl graph []
    let w2 : World := { w1 with fs := fsUpdate w1.fs fileName r.1 }
    match r.2 with
    | some e =>
      { world := { w2 with openCount := w2.openCount - 1 },
        trace := [Event.openedOut fileName, Event.calledSerializeOut,
          Event.closedStream fileName],
        thrown := some e }
    | none =>
      { world := { w2 with openCount := w2.openCount - 1 },
        trace := [Event.openedOut fileName, Event.calledSerializeOut,
          Event.closedStream fileName],
        thrown := none }

/-- Wrapper `serializeInFrom(std::string, Graph&)` (lines 179-188): construct
`std::ifstream is(fileName, in|binary)`; `!is` holds when the file does not
exist or the path is read-denied, in which case print the open-failure message
to `std::cerr` and return with the graph untouched; otherwise call the virtual
`serializeIn(is, graph)` and close the handle on both the exceptional and the
normal exit (destructor resp. explicit `is.close()`). -/
def serializeInFrom (impl : InImpl) (w : World) (fileName : String) (graph : Graph) :
    InResult :=
  match fsLookup w.fs fileName with
  | none =>
    { world := w, graph := graph, trace := [Event.cerrOpenFail fileName], thrown := none }
  | some contents =>
    if fileName ∈ w.readDenied then
      { world := w, graph := graph, trace := [Event.cerrOpenFail fileName], thrown := none }
    else
      let w1 : World := { w with openCount := w.openCount + 1 }
      let r := impl (contents, 0) graph
      match r.2.2 with
      | some e =>
        { world := { w1 with openCount := w1.openCount - 1 }, graph := r.2.1,
          trace := [Event.openedIn fileName, Event.calledSerializeIn,
            Event.closedStream fileName],
          thrown := some e }
      | none =>
        { world := { w1 with openCount := w1.openCount - 1 }, graph := r.2.1,
          trace := [Event.openedIn fileName, Event.calledSerializeIn,
            Event.closedStream fileName],
          thrown := none }

/-- The three failure kinds of the error taxonomy. -/
inductive FailureKind where
  | channelOpen
  | encode
  | decode
deriving DecidableEq

/-- Failure, if any, an immediate caller of `serializeOutTo` observes from the
call's synchronous outcome: a propagated exception is an encode failure; an
open-failure message in the trace is a channel-open failure. -/
def outObservedFailure (r : OutResult) (path : String) : Option FailureKind :=
  match r.thrown with
  | some _ => some FailureKind.encode
  | none =>
    if Event.cerrOpenFail path ∈ r.trace then some FailureKind.channelOpen else none

/-- Failure, if any, an immediate caller of `serializeInFrom` observes from the
call's synchronous outcome: a propagated exception is a decode failure; an
open-failure message in the trace is a channel-open failure. -/
def inObservedFailure (r : InResult) (path : String) : Option FailureKind :=
  match r.thrown with
  | some _ => some FailureKind.decode
  | none =>
    if Event.cerrOpenFail path ∈ r.trace then some FailureKind.channelOpen else none

/-- Any registration call keeps the held-notifier slot non-null when it was
non-null before. -/
theorem applyRegister_held_ne_none (s : SerializerState) (c : RegisterCall)
    (h : s.held ≠ none) : (applyRegister s c).held ≠ none := by
  cases c with
  | viaUniquePtr p =>
    cases p with
    | none => simpa [applyRegister, registerProgressNotifierUnique] using h
    | some r => simp [applyRegister, registerProgressNotifierUnique]
  | viaRawPtr p =>
    cases p with
    | none => simpa [applyRegister, registerProgressNotifierRaw] using h
    | some r => simp [applyRegister, registerProgressNotifierRaw]

/-- After any sequence of registration calls on a state whose slot is
non-null, the slot is still non-null. -/
theorem runRegisterCalls_held_ne_none (calls : List RegisterCall) (s : SerializerState)
    (h : s.held ≠ none) : (runRegisterCalls s calls).held ≠ none := by
  induction calls generalizing s with
  | nil => exact h
  | cons c rest ih =>
    have hstep : runRegisterCalls s (c :: rest) = runRegisterCalls (applyRegister s c) rest :=
      rfl
    rw [hstep]
    exact ih _ (applyRegister_held_ne_none s c h)

/-- C1: For every Serializer instance, after construction and after any
sequence of registerProgressNotifier calls, the non-const getProgressNotifier()
succeeds (the defensive check does not signal) and returns a non-null handle to
the currently held notifier. -/
theorem c1_getProgressNotifier_succeeds_nonnull (defaultNotifier : Nat)
    (calls : List RegisterCall) :
    ∃ p : Nat,
      (runRegisterCalls (mkSerializer defaultNotifier) calls).held = some p ∧
      getProgressNotifier (runRegisterCalls (mkSerializer defaultNotifier) calls) =
        Except.ok (some p) := by
  have h0 : (mkSerializer defaultNotifier).held ≠ none := by simp [mkSerializer]
  have h := runRegisterCalls_held_ne_none calls (mkSerializer defaultNotifier) h0
  cases hp : (runRegisterCalls (mkSerializer defaultNotifier) calls).held with
  | none => exact absurd hp h
  | some p =>
    exact ⟨p, rfl, by simp [getProgressNotifier, assert_throw, hp]⟩

/-- C2: Calling registerProgressNotifier with a null argument, through either
overload, leaves the serializer state (in particular the installed notifier)
unchanged: nothing is cleared, replaced or destroyed. -/
theorem c2_register_null_is_noop (s : SerializerState) :
    registerProgressNotifierUnique s none = s ∧ registerProgressNotifierRaw s none = s := by
  constructor <;> simp [registerProgressNotifierUnique, registerProgressNotifierRaw]

/-- C3: Registering a non-null notifier `r` (unique_ptr overload) and then
calling getProgressNotifier() yields a handle to exactly `r` (pointer
identity), and the previously held notifier is destroyed by the
registration. -/
theorem c3_register_then_get_identity (s : SerializerState) (r : Nat) :
    getProgressNotifier (registerProgressNotifierUnique s (some r)) = Except.ok (some r) ∧
    ∀ q : Nat, s.held = some q →
      (registerProgressNotifierUnique s (some r)).destroyed = s.destroyed ++ [q] := by
  constructor
  · simp [getProgressNotifier, assert_throw, registerProgressNotifierUnique]
  · intro q hq
    simp [registerProgressNotifierUnique, hq]

/-- Witness for C3 at a concrete state: fresh serializer with default notifier
id 0, registering notifier id 1. -/
theorem c3_register_then_get_identity_witness :
    getProgressNotifier (registerProgressNotifierUnique (mkSerializer 0) (some 1)) =
      Except.ok (some 1) ∧
    (registerProgressNotifierUnique (mkSerializer 0) (some 1)).destroyed =
      (mkSerializer 0).destroyed ++ [0] :=
  ⟨(c3_register_then_get_identity (mkSerializer 0) 1).1,
   (c3_register_then_get_identity (mkSerializer 0) 1).2 0 (by decide)⟩

/-- C10: The two registerProgressNotifier overloads are behaviourally
equivalent: on every state and argument they produce the same state; both
ignore a null argument; and for a non-null notifier both install exactly it and
destroy the previous occupant of the slot. -/
theorem c10_overloads_equivalent (s : SerializerState) :
    (∀ p : Option Nat,
      registerProgressNotifierUnique s p = registerProgressNotifierRaw s p) ∧
    (registerProgressNotifierUnique s none = s ∧ registerProgressNotifierRaw s none = s) ∧
    (∀ r : Nat,
      (registerProgressNotifierUnique s (some r)).held = some r ∧
      (registerProgressNotifierRaw s (some r)).held = some r ∧
      (registerProgressNotifierUnique s (some r)).destroyed =
        s.destroyed ++ s.held.toList ∧
      (registerProgressNotifierRaw s (some r)).destroyed =
        s.destroyed ++ s.held.toList) := by
  refine ⟨fun p => rfl, ⟨?_, ?_⟩, fun r => ⟨?_, ?_, ?_, ?_⟩⟩ <;>
    simp [registerProgressNotifierUnique, registerProgressNotifierRaw]

/-- C4: For every graph, every stream-based implementation and every path on
which the output stream cannot be created/opened, serializeOutTo reports the
open failure, changes nothing in the world (no file written, no handle
leaked), never invokes the stream-based serializeOut, and propagates no
exception. -/
theorem c4_out_open_failure_aborts (impl : OutImpl) (w : World) (g : Graph) (p : String)
    (hp : p ∈ w.writeDenied) :
    (serializeOutTo impl w g p).world = w ∧
    (serializeOutTo impl w g p).trace = [Event.cerrOpenFail p] ∧
    Event.calledSerializeOut ∉ (serializeOutTo impl w g p).trace ∧
    (serializeOutTo impl w g p).thrown = none := by
  refine ⟨?_, ?_, ?_, ?_⟩ <;> simp [serializeOutTo, hp]

/-- Witness for C4: the empty world denying writes on path "a". -/
theorem c4_out_open_failure_aborts_witness :
    (serializeOutTo serializeOutStreamDefault ⟨[], ["a"], [], 0⟩ 0 "a").world =
      ⟨[], ["a"], [], 0⟩ ∧
    (serializeOutTo serializeOutStreamDefault ⟨[], ["a"], [], 0⟩ 0 "a").trace =
      [Event.cerrOpenFail "a"] ∧
    Event.calledSerializeOut ∉
      (serializeOutTo serializeOutStreamDefault ⟨[], ["a"], [], 0⟩ 0 "a").trace ∧
    (serializeOutTo serializeOutStreamDefault ⟨[], ["a"], [], 0⟩ 0 "a").thrown = none :=
  c4_out_open_failure_aborts serializeOutStreamDefault ⟨[], ["a"], [], 0⟩ 0 "a" (by decide)

/-- C5: For every graph view, every stream-based implementation and every path
that cannot be opened for reading (missing file or denied read),
serializeInFrom reports the open failure and leaves the graph view and the
world completely untouched; the stream-based serializeIn is never invoked and
no exception propagates. -/
theorem c5_in_open_failure_aborts (impl : InImpl) (w : World) (p : String) (g : Graph)
    (hp : fsLookup w.fs p = none ∨ p ∈ w.readDenied) :
    (serializeInFrom impl w p g).world = w ∧
    (serializeInFrom impl w p g).graph = g ∧
    (serializeInFrom impl w p g).trace = [Event.cerrOpenFail p] ∧
    Event.calledSerializeIn ∉ (serializeInFrom impl w p g).trace ∧
    (serializeInFrom impl w p g).thrown = none := by
  rcases hp with hp | hp
  · refine ⟨?_, ?_, ?_, ?_, ?_⟩ <;> simp [serializeInFrom, hp]
  · cases hl : fsLookup w.fs p with
    | none => refine ⟨?_, ?_, ?_, ?_, ?_⟩ <;> simp [serializeInFrom, hl]
    | some contents => refine ⟨?_, ?_, ?_, ?_, ?_⟩ <;> simp [serializeInFrom, hl, hp]

/-- Witness for C5: the empty world (path "a" does not exist). -/
theorem c5_in_open_failure_aborts_witness :
    (serializeInFrom serializeInStreamDefault ⟨[], [], [], 0⟩ "a" 0).world =
      ⟨[], [], [], 0⟩ ∧
    (serializeInFrom serializeInStreamDefault ⟨[], [], [], 0⟩ "a" 0).graph = 0 ∧
    (serializeInFrom serializeInStreamDefault ⟨[], [], [], 0⟩ "a" 0).trace =
      [Event.cerrOpenFail "a"] ∧
    Event.calledSerializeIn ∉
      (serializeInFrom serializeInStreamDefault ⟨[], [], [], 0⟩ "a" 0).trace ∧
    (serializeInFrom serializeInStreamDefault ⟨[], [], [], 0⟩ "a" 0).thrown = none :=
  c5_in_open_failure_aborts serializeInStreamDefault ⟨[], [], [], 0⟩ "a" 0
    (Or.inl (by decide))

/-- C6: When neither capability is overridden, the default stream-based
serializeOut and serializeIn bodies are no-ops: the sink receives no bytes, the
source stream is not consumed, the graph view is unchanged, and no error is
signalled — likewise for the two base-interface defaults. -/
theorem c6_default_bodies_are_noops (g : Graph) (os : OutStream) (is : InStream)
    (pr : Option Nat) :
    serializeOutStreamDefault g os = (os, none) ∧
    serializeInStreamDefault is g = (is, g, none) ∧
    outSerializerSerializeOutDefault g pr = none ∧
    inSerializerSerializeInDefault g pr = (g, none) :=
  ⟨rfl, rfl, rfl, rfl⟩

/-- C7: For every path-based wrapper call, a stream opened on entry is closed
on every exit path — normal return, exception from the delegated stream-based
call, and open failure: the number of open OS handles is restored, and the
trace contains a close exactly when it contains an open. -/
theorem c7_stream_closed_on_every_exit (oImpl : OutImpl) (iImpl : InImpl) (w : World)
    (g : Graph) (p : String) :
    (serializeOutTo oImpl w g p).world.openCount = w.openCount ∧
    (Event.openedOut p ∈ (serializeOutTo oImpl w g p).trace ↔
      Event.closedStream p ∈ (serializeOutTo oImpl w g p).trace) ∧
    (serializeInFrom iImpl w p g).world.openCount = w.openCount ∧
    (Event.openedIn p ∈ (serializeInFrom iImpl w p g).trace ↔
      Event.closedStream p ∈ (serializeInFrom iImpl w p g).trace) := by
  refine ⟨?_, ?_, ?_, ?_⟩
  · by_cases hp : p ∈ w.writeDenied
    · simp [serializeOutTo, hp]
    · cases he : (oImpl g []).2 with
      | none => simp [serializeOutTo, hp, he]
      | some e => simp [serializeOutTo, hp, he]
  · by_cases hp : p ∈ w.writeDenied
    · simp [serializeOutTo, hp]
    · cases he : (oImpl g []).2 with
      | none => simp [serializeOutTo, hp, he]
      | some e => simp [serializeOutTo, hp, he]
  · cases hl : fsLookup w.fs p with
    | none => simp [serializeInFrom, hl]
    | some contents =>
      by_cases hp : p ∈ w.readDenied
      · simp [serializeInFrom, hl, hp]
      · cases he : (iImpl (contents, 0) g).2.2 with
        | none => simp [serializeInFrom, hl, hp, he]
        | some e => simp [serializeInFrom, hl, hp, he]
  · cases hl : fsLookup w.fs p with
    | none => simp [serializeInFrom, hl]
    | some contents =>
      by_cases hp : p ∈ w.readDenied
      · simp [serializeInFrom, hl, hp]
      · cases he : (iImpl (contents, 0) g).2.2 with
        | none => simp [serializeInFrom, hl, hp, he]
        | some e => simp [serializeInFrom, hl, hp, he]

/-- C8: Every failure is surfaced synchronously in the call's own outcome and
is distinguishable by kind: the observed failure of serializeOutTo is exactly
channelOpen when the path is write-denied, encode when the delegated call
throws, and absent on success; symmetrically for serializeInFrom with decode;
and the three kinds are pairwise distinct, so a failed open is observable as
distinct from success and from encode/decode failures. -/
theorem c8_failures_distinguishable_by_kind (oImpl : OutImpl) (iImpl : InImpl) (w : World)
    (g : Graph) (p : String) :
    outObservedFailure (serializeOutTo oImpl w g p) p =
      (if p ∈ w.writeDenied then some FailureKind.channelOpen
       else
         match (oImpl g []).2 with
         | some _ => some FailureKind.encode
         | none => none) ∧
    inObservedFailure (serializeInFrom iImpl w p g) p =
      (match fsLookup w.fs p with
       | none => some FailureKind.channelOpen
       | some contents =>
         if p ∈ w.readDenied then some FailureKind.channelOpen
         else
           match (iImpl (contents, 0) g).2.2 with
           | some _ => some FailureKind.decode
           | none => none) ∧
    FailureKind.channelOpen ≠ FailureKind.encode ∧
    FailureKind.channelOpen ≠ FailureKind.decode ∧
    FailureKind.encode ≠ FailureKind.decode := by
  refine ⟨?_, ?_, by decide, by decide, by decide⟩
  · by_cases hp : p ∈ w.writeDenied
    · simp [serializeOutTo, outObservedFailure, hp]
    · cases he : (oImpl g []).2 with
      | none => simp [serializeOutTo, outObservedFailure, hp, he]
      | some e => simp [serializeOutTo, outObservedFailure, hp, he]
  · cases hl : fsLookup w.fs p with
    | none => simp [serializeInFrom, inObservedFailure, hl]
    | some contents =>
      by_cases hp : p ∈ w.readDenied
      · simp [serializeInFrom, inObservedFailure, hl, hp]
      · cases he : (iImpl (contents, 0) g).2.2 with
        | none => simp [serializeInFrom, inObservedFailure, hl, hp, he]
        | some e => simp [serializeInFrom, inObservedFailure, hl, hp, he]

/-- Setting a file's contents makes a subsequent lookup of that path see
exactly those contents. -/
theorem fsLookup_fsUpdate_self (fs : List (String × List Byte)) (p : String)
    (v : List Byte) : fsLookup (fsUpdate fs p v) p = some v := by
  induction fs with
  | nil => simp [fsUpdate, fsLookup]
  | cons kv rest ih =>
    obtain ⟨k, c⟩ := kv
    by_cases hk : k = p
    · simp [fsUpdate, fsLookup, hk]
    · simp [fsUpdate, fsLookup, hk, ih]

/-- On a writable path, serializeOutTo produces the world with the file set to
exactly the bytes the delegated call wrote to the fresh truncated stream, the
open-handle count restored, and the denial lists unchanged. -/
theorem serializeOutTo_world_on_writable (impl : OutImpl) (w : World) (g : Graph)
    (p : String) (hp : p ∉ w.writeDenied) :
    (serializeOutTo impl w g p).world =
      { fs := fsUpdate (fsUpdate w.fs p []) p (impl g []).1,
        writeDenied := w.writeDenied, readDenied := w.readDenied,
        openCount := w.openCount } := by
  cases he : (impl g []).2 with
  | none => simp [serializeOutTo, hp, he]
  | some e => simp [serializeOutTo, hp, he]

/-- C9: Writing twice in sequence to the same writable path truncates: after
the second serializeOutTo call the file holds exactly the second call's output
(no residue from the first write), the contents at that path are the same as if
the first call had never happened, and a subsequent serializeInFrom feeds
exactly the second call's bytes to the decoder. -/
theorem c9_second_write_truncates (oImpl : OutImpl) (iImpl : InImpl) (w : World)
    (g1 g2 g : Graph) (p : String) (hp : p ∉ w.writeDenied) :
    fsLookup
        ((serializeOutTo oImpl (serializeOutTo oImpl w g1 p).world g2 p).world.fs) p =
      some (oImpl g2 []).1 ∧
    fsLookup
        ((serializeOutTo oImpl (serializeOutTo oImpl w g1 p).world g2 p).world.fs) p =
      fsLookup ((serializeOutTo oImpl w g2 p).world.fs) p ∧
    (p ∉ w.readDenied →
      (serializeInFrom iImpl
          (serializeOutTo oImpl (serializeOutTo oImpl w g1 p).world g2 p).world p
          g).graph =
        (iImpl ((oImpl g2 []).1, 0) g).2.1) := by
  have h1 := serializeOutTo_world_on_writable oImpl w g1 p hp
  have hp1 : p ∉ (serializeOutTo oImpl w g1 p).world.writeDenied := by
    rw [h1]; exact hp
  have h2 := serializeOutTo_world_on_writable oImpl
    (serializeOutTo oImpl w g1 p).world g2 p hp1
  have hfs :
      fsLookup
          ((serializeOutTo oImpl (serializeOutTo oImpl w g1 p).world g2 p).world.fs) p =
        some (oImpl g2 []).1 := by
    rw [h2]
    exact fsLookup_fsUpdate_self _ p _
  refine ⟨hfs, ?_, ?_⟩
  · rw [hfs, serializeOutTo_world_on_writable oImpl w g2 p hp]
    exact (fsLookup_fsUpdate_self _ p _).symm
  · intro hr
    have hr2 :
        p ∉ (serializeOutTo oImpl (serializeOutTo oImpl w g1 p).world g2 p).world.readDenied := by
      rw [h2, h1]; exact hr
    cases he : (iImpl ((oImpl g2 []).1, 0) g).2.2 with
    | none => simp [serializeInFrom, hfs, hr2, he]
    | some e => simp [serializeInFrom, hfs, hr2, he]

/-- Witness for C9: empty world, path "a", default (no-op) implementations. -/
theorem c9_second_write_truncates_witness :
    fsLookup
        ((serializeOutTo serializeOutStreamDefault
            (serializeOutTo serializeOutStreamDefault ⟨[], [], [], 0⟩ 1 "a").world
            2 "a").world.fs) "a" =
      some (serializeOutStreamDefault 2 []).1 ∧
    fsLookup
        ((serializeOutTo serializeOutStreamDefault
            (serializeOutTo serializeOutStreamDefault ⟨[], [], [], 0⟩ 1 "a").world
            2 "a").world.fs) "a" =
      fsLookup ((serializeOutTo serializeOutStreamDefault ⟨[], [], [], 0⟩ 2 "a").world.fs)
        "a" ∧
    (serializeInFrom serializeInStreamDefault
        (serializeOutTo serializeOutStreamDefault
            (serializeOutTo serializeOutStreamDefault ⟨[], [], [], 0⟩ 1 "a").world
            2 "a").world "a" 5).graph =
      (serializeInStreamDefault ((serializeOutStreamDefault 2 []).1, 0) 5).2.1 :=
  ⟨(c9_second_write_truncates serializeOutStreamDefault serializeInStreamDefault
      ⟨[], [], [], 0⟩ 1 2 5 "a" (by decide)).1,
   (c9_second_write_truncates serializeOutStreamDefault serializeInStreamDefault
      ⟨[], [], [], 0⟩ 1 2 5 "a" (by decide)).2.1,
   (c9_second_write_truncates serializeOutStreamDefault serializeInStreamDefault
      ⟨[], [], [], 0⟩ 1 2 5 "a" (by decide)).2.2 (by decide)⟩

end GtpoSerializer
